import Mathlib

/-!
# mic-select: aggregate-mic.c

A shallow embedding of `src/macos/aggregate-mic.c` (and of
`device_has_input_channels` from `src/macos/tests/test_aggregate_mic.c`).

The CoreAudio property store is an explicit value `AudioSystem`; every call of
`AudioObjectGetPropertyData` / `AudioObjectSetPropertyData` made by the program
is a field lookup (the returned `OSStatus` and the returned data), and an
accepted write is a field update.  Functions that only read are pure functions
of the `AudioSystem`; functions that write return the new `AudioSystem` and the
list of events they performed.  The conversion of a device name into the local
buffer `char cName[256]` is modelled with its size bound; what the buffer holds
after a failed conversion is a field of the `AudioSystem`.
-/

namespace MicSelect

/-! ## Data model -/

/-- CoreAudio `AudioDeviceID` (a `UInt32` object handle). -/
abbrev AudioDeviceID := Nat

/-- CoreAudio `OSStatus` (a signed 32-bit status code). -/
abbrev OSStatus := Int

/-- A NUL-terminated C string, as the list of its characters before the NUL. -/
abbrev CString := List Char

/-- A non-NULL `CFStringRef`, as its characters. A nullable reference is an `Option`. -/
abbrev CFString := List Char

/-- The status `noErr` of MacTypes.h. -/
def noErr : OSStatus := 0

/-- The handle `kAudioDeviceUnknown` (`kAudioObjectUnknown`) of AudioHardwareBase.h. -/
def kAudioDeviceUnknown : AudioDeviceID := 0

/-- The audio subsystem as seen through the property calls of the program.

* `devicesSizeStatus`, `devicesDataStatus`, `devices`: the two reads of
  `kAudioHardwarePropertyDevices` on the system object (size, then contents);
  `devices` is the array in enumeration order, `deviceCount` its length.
* `nameStatus d`, `name d`: the read of `kAudioDevicePropertyDeviceNameCFString`
  on `d`; `name d` is `none` for a NULL reference and otherwise the display
  name of `d`, a `CFString` of any length.
* `cNameOnFailure name d`: what the local buffer `char cName[256]` holds, read
  as a C string, in the call with search string `name` at device `d` when
  `CFStringGetCString` fails there. The buffer is not initialised and the
  result of the conversion is not tested, so this content is indeterminate
  (empty, a truncated name, or a name left by an earlier iteration or call).
* `uidStatus d`, `uid d`: the read of `kAudioDevicePropertyDeviceUID` on `d`.
* `subDeviceListStatus d`, `subDeviceList d`: the read of
  `kAudioAggregateDevicePropertyFullSubDeviceList` on `d`.
* `setSubDeviceListStatus d l`: the status with which a write of `l` to that
  property of `d` is answered.
* `defaultInput`: the stored `kAudioHardwarePropertyDefaultInputDevice`.
* `setDefaultInputStatus d`: the status with which a write of `d` to it is answered.
* `inputConfigSizeStatus d`, `inputConfigSize d`, `inputConfigStatus d`,
  `inputBuffers d`: the two reads of `kAudioDevicePropertyStreamConfiguration`
  in input scope; `inputBuffers d` lists `mBuffers[i].mNumberChannels`.
* `mallocOk n`: whether `malloc n` returns a non-NULL pointer.
* `daemonRestarts`: how many times `coreaudiod` has been killed. -/
structure AudioSystem where
  devicesSizeStatus : OSStatus
  devicesDataStatus : OSStatus
  devices : List AudioDeviceID
  nameStatus : AudioDeviceID → OSStatus
  name : AudioDeviceID → Option CFString
  cNameOnFailure : CString → AudioDeviceID → CString
  uidStatus : AudioDeviceID → OSStatus
  uid : AudioDeviceID → Option CFString
  subDeviceListStatus : AudioDeviceID → OSStatus
  subDeviceList : AudioDeviceID → Option (List CFString)
  setSubDeviceListStatus : AudioDeviceID → List CFString → OSStatus
  defaultInput : AudioDeviceID
  setDefaultInputStatus : AudioDeviceID → OSStatus
  inputConfigSizeStatus : AudioDeviceID → OSStatus
  inputConfigSize : AudioDeviceID → Nat
  inputConfigStatus : AudioDeviceID → OSStatus
  inputBuffers : AudioDeviceID → List Nat
  mallocOk : Nat → Bool
  daemonRestarts : Nat

/-- What the program does to its environment, in program order. -/
inductive Event where
  /-- The usage line written to standard error; the argument is `argv[0]`. -/
  | usage (prog : Option CString)
  /-- A call of `find_device_by_name`. -/
  | callFind (name : CString)
  /-- A call of `get_device_uid`. -/
  | callGetUid (deviceID : AudioDeviceID)
  /-- A call of `set_aggregate_to_single_device`. -/
  | callSetAggregate (aggID : AudioDeviceID) (targetUID : CFString)
  /-- A call of `set_default_input`. -/
  | callSetDefaultInput (deviceID : AudioDeviceID)
  /-- An `AudioObjectSetPropertyData` of the full sub-device list. -/
  | writeSubDeviceList (aggID : AudioDeviceID) (members : List CFString)
  /-- The command `killall coreaudiod` run through `system`. -/
  | restartDaemon
  /-- A blocking `sleep` of the given number of seconds. -/
  | sleep (seconds : Nat)
  /-- An `AudioObjectSetPropertyData` of the default input device. -/
  | writeDefaultInput (deviceID : AudioDeviceID)
  deriving DecidableEq, Repr

/-- The events that change the audio subsystem. -/
def Event.isMutation : Event → Bool
  | .writeSubDeviceList _ _ => true
  | .restartDaemon => true
  | .writeDefaultInput _ => true
  | _ => false

/-- The events that are calls of one of the four operations of the program. -/
def Event.isCall : Event → Bool
  | .callFind _ => true
  | .callGetUid _ => true
  | .callSetAggregate _ _ => true
  | .callSetDefaultInput _ => true
  | _ => false

/-! ## `strstr` -/

/-- Whether `needle` is an initial segment of `hay` (the inner comparison of `strstr`). -/
def startsWith : CString → CString → Bool
  | _, [] => true
  | [], _ :: _ => false
  | h :: hs, n :: ns => h == n && startsWith hs ns

/-- C `strstr`: the offset of the first occurrence of `needle` in `hay`, or
`none` for a NULL result. An empty `needle` is found at offset 0. -/
def strstr : CString → CString → Option Nat
  | [], needle => if startsWith [] needle then some 0 else none
  | h :: hs, needle =>
    if startsWith (h :: hs) needle then some 0
    else (strstr hs needle).map (· + 1)

/-! ## `CFStringGetCString` and the buffer `cName` -/

/-- The number of bytes of the UTF-8 encoding of a character. -/
def utf8Size (c : Char) : Nat :=
  if c.toNat < 128 then 1 else if c.toNat < 2048 then 2 else if c.toNat < 65536 then 3 else 4

/-- The number of bytes of the UTF-8 encoding of a string, without a terminating NUL. -/
def utf8Length : List Char → Nat
  | [] => 0
  | c :: cs => utf8Size c + utf8Length cs

/-- CoreFoundation `CFStringGetCString` with encoding `kCFStringEncodingUTF8`:
the conversion succeeds (`some`, the characters written before the terminating
NUL) when the encoded string and its terminating NUL fit in `bufferSize`
bytes, and fails (`none`, the Boolean result `false`) otherwise. -/
def CFStringGetCString (theString : CFString) (bufferSize : Nat) : Option (List Char) :=
  if utf8Length theString + 1 ≤ bufferSize then some theString else none

/-- A character buffer read as a C string: the characters before the first NUL. -/
def cStringOfBuffer (buffer : List Char) : CString :=
  buffer.takeWhile (fun c => decide (c ≠ Char.ofNat 0))

/-- The content of `char cName[256]` as `strstr` reads it on line 43, for the
device `d` with display name `deviceName`: the converted name when
`CFStringGetCString(deviceName, cName, sizeof(cName), ...)` succeeds, and the
indeterminate content of the buffer when it fails (its result is dropped). -/
def cNameAfterConversion (sys : AudioSystem) (name : CString) (d : AudioDeviceID)
    (deviceName : CFString) : CString :=
  match CFStringGetCString deviceName 256 with
  | some buffer => cStringOfBuffer buffer
  | none => sys.cNameOnFailure name d

/-! ## `find_device_by_name` -/

/-- The `for` loop of `find_device_by_name` over the remaining devices:
`found` starts as `kAudioDeviceUnknown`, a device whose name read fails or is
NULL is passed over, the name read is converted into `cName`, and the first
device for which `strstr` accepts `cName` is returned through `break`. -/
def find_device_loop (sys : AudioSystem) (name : CString) : List AudioDeviceID → AudioDeviceID
  | [] => kAudioDeviceUnknown
  | d :: rest =>
    if sys.nameStatus d = noErr then
      match sys.name d with
      | some deviceName =>
        if (strstr (cNameAfterConversion sys name d deviceName) name).isSome then d
        else find_device_loop sys name rest
      | none => find_device_loop sys name rest
    else find_device_loop sys name rest

/-- The function `find_device_by_name` of aggregate-mic.c. -/
def find_device_by_name (sys : AudioSystem) (name : CString) : AudioDeviceID :=
  if sys.devicesSizeStatus ≠ noErr then kAudioDeviceUnknown
  else if sys.devicesDataStatus ≠ noErr then kAudioDeviceUnknown
  else find_device_loop sys name sys.devices

/-- A device is passed over by the loop when its name read fails, its name is
NULL, or the content of `cName` does not contain the search string. -/
def passedOver (sys : AudioSystem) (name : CString) (d : AudioDeviceID) : Prop :=
  sys.nameStatus d = noErr → ∀ deviceName, sys.name d = some deviceName →
    ¬ name <:+: cNameAfterConversion sys name d deviceName

/-- A display name fits the buffer `cName`: its UTF-8 encoding has at most 255
bytes, leaving room for the terminating NUL, and it contains no NUL character. -/
def fitsCName (deviceName : CFString) : Prop :=
  utf8Length deviceName + 1 ≤ 256 ∧ Char.ofNat 0 ∉ deviceName

instance (deviceName : CFString) : Decidable (fitsCName deviceName) :=
  inferInstanceAs (Decidable (utf8Length deviceName + 1 ≤ 256 ∧ Char.ofNat 0 ∉ deviceName))

/-- Whether the name read of a device succeeds with a non-NULL name. -/
def nameReadable (sys : AudioSystem) (d : AudioDeviceID) : Bool :=
  decide (sys.nameStatus d = noErr) && (sys.name d).isSome

/-! ## `get_device_uid` -/

/-- The function `get_device_uid` of aggregate-mic.c; `none` is NULL. -/
def get_device_uid (sys : AudioSystem) (deviceID : AudioDeviceID) : Option CFString :=
  if sys.uidStatus deviceID = noErr then sys.uid deviceID else none

/-! ## `set_aggregate_to_single_device`, `set_default_input`, `main` -/

/-- The result of a function that acts on the audio subsystem: the returned
`int`, the subsystem afterwards, and the events performed. -/
structure Outcome where
  ret : Int
  sys : AudioSystem
  trace : List Event

/-- The function `set_aggregate_to_single_device` of aggregate-mic.c. -/
def set_aggregate_to_single_device (sys : AudioSystem) (aggID : AudioDeviceID)
    (targetUID : CFString) : Outcome :=
  if sys.subDeviceListStatus aggID ≠ noErr ∨ sys.subDeviceList aggID = none then
    ⟨-1, sys, []⟩
  else
    let newList : List CFString := [] ++ [targetUID]
    let err := sys.setSubDeviceListStatus aggID newList
    let sys1 : AudioSystem :=
      if err = noErr then
        { sys with subDeviceList := fun d => if d = aggID then some newList else sys.subDeviceList d }
      else sys
    if err ≠ noErr then
      ⟨-1, sys1, [Event.writeSubDeviceList aggID newList]⟩
    else
      ⟨0, { sys1 with daemonRestarts := sys1.daemonRestarts + 1 },
        [Event.writeSubDeviceList aggID newList, Event.restartDaemon, Event.sleep 2]⟩

/-- The function `set_default_input` of aggregate-mic.c (returns `void`; the
status of the write is dropped). -/
def set_default_input (sys : AudioSystem) (deviceID : AudioDeviceID) : AudioSystem × List Event :=
  let sys1 : AudioSystem :=
    if sys.setDefaultInputStatus deviceID = noErr then { sys with defaultInput := deviceID }
    else sys
  (sys1, [Event.writeDefaultInput deviceID])

/-- The function `main` of aggregate-mic.c; `argc` is `argv.length`. -/
def main (argv : List CString) (sys : AudioSystem) : Outcome :=
  match argv with
  | _ :: aggName :: micName :: _ =>
    let aggID := find_device_by_name sys aggName
    if aggID = kAudioDeviceUnknown then
      ⟨1, sys, [Event.callFind aggName]⟩
    else
      let micID := find_device_by_name sys micName
      if micID = kAudioDeviceUnknown then
        ⟨1, sys, [Event.callFind aggName, Event.callFind micName]⟩
      else
        match get_device_uid sys micID with
        | none =>
          ⟨1, sys, [Event.callFind aggName, Event.callFind micName, Event.callGetUid micID]⟩
        | some micUID =>
          let r := set_aggregate_to_single_device sys aggID micUID
          let pre := [Event.callFind aggName, Event.callFind micName, Event.callGetUid micID,
            Event.callSetAggregate aggID micUID] ++ r.trace
          if r.ret ≠ 0 then
            ⟨1, r.sys, pre⟩
          else
            let d := set_default_input r.sys micID
            ⟨0, d.1, pre ++ [Event.callSetDefaultInput micID] ++ d.2⟩
  | _ => ⟨1, sys, [Event.usage argv.head?]⟩

/-! ## `device_has_input_channels` (tests/test_aggregate_mic.c) -/

/-- The summation loop of `device_has_input_channels`: `totalChannels` is a
`UInt32`, so each `+=` is taken modulo `2^32`. -/
def sum_channels (totalChannels : Nat) : List Nat → Nat
  | [] => totalChannels
  | c :: rest => sum_channels ((totalChannels + c) % 2 ^ 32) rest

/-- The function `device_has_input_channels` of tests/test_aggregate_mic.c;
the returned `int` is `totalChannels > 0`, that is 1 or 0. -/
def device_has_input_channels (sys : AudioSystem) (deviceID : AudioDeviceID) : Int :=
  if sys.inputConfigSizeStatus deviceID ≠ noErr then 0
  else if !sys.mallocOk (sys.inputConfigSize deviceID) then 0
  else if sys.inputConfigStatus deviceID ≠ noErr then 0
  else if sum_channels 0 (sys.inputBuffers deviceID) > 0 then 1 else 0

/-! ## Concrete systems used in the examples -/

/-- A subsystem with no devices in which every read and every write is answered `noErr`. -/
def emptySystem : AudioSystem where
  devicesSizeStatus := 0
  devicesDataStatus := 0
  devices := []
  nameStatus := fun _ => 0
  name := fun _ => none
  cNameOnFailure := fun _ _ => []
  uidStatus := fun _ => 0
  uid := fun _ => none
  subDeviceListStatus := fun _ => 0
  subDeviceList := fun _ => none
  setSubDeviceListStatus := fun _ _ => 0
  defaultInput := 0
  setDefaultInputStatus := fun _ => 0
  inputConfigSizeStatus := fun _ => 0
  inputConfigSize := fun _ => 0
  inputConfigStatus := fun _ => 0
  inputBuffers := fun _ => []
  mallocOk := fun _ => true
  daemonRestarts := 0

/-- Devices 41 "Built-in Output" and 42 "USB Mic Pro", in this order. -/
def usbMicSystem : AudioSystem :=
  { emptySystem with
    devices := [41, 42]
    name := fun d =>
      if d = 41 then some "Built-in Output".toList
      else if d = 42 then some "USB Mic Pro".toList else none }

/-- A single device 43 named "usb microphone". -/
def lowercaseSystem : AudioSystem :=
  { emptySystem with
    devices := [43]
    name := fun d => if d = 43 then some "usb microphone".toList else none }

/-- Device 1, whose name read is answered with an error, followed by device 2
"USB Mic Pro". -/
def unreadableFirstSystem : AudioSystem :=
  { emptySystem with
    devices := [1, 2]
    nameStatus := fun d => if d = 1 then -1 else 0
    name := fun d => if d = 2 then some "USB Mic Pro".toList else none }

/-- The scenario of the specification: aggregate 10 "MultiMic" with members
idX and idY, then 11 "Built-in Microphone" (identity idX) and 12 "Blue Yeti"
(identity idY); the default input is device 11. -/
def multiMicSystem : AudioSystem :=
  { emptySystem with
    devices := [10, 11, 12]
    name := fun d =>
      if d = 10 then some "MultiMic".toList
      else if d = 11 then some "Built-in Microphone".toList
      else if d = 12 then some "Blue Yeti".toList else none
    uid := fun d =>
      if d = 10 then some "idAgg".toList
      else if d = 11 then some "idX".toList
      else if d = 12 then some "idY".toList else none
    subDeviceList := fun d => if d = 10 then some ["idX".toList, "idY".toList] else none
    defaultInput := 11 }

/-- A single device 7 whose display name is 300 times "x" followed by "Mic"
(303 bytes of UTF-8); `garbage` is what `cName` holds after the failed
conversion. -/
def longNameSystem (garbage : CString) : AudioSystem :=
  { emptySystem with
    devices := [7]
    name := fun d => if d = 7 then some (List.replicate 300 'x' ++ "Mic".toList) else none
    cNameOnFailure := fun _ _ => garbage }

/-- A single device 8 whose display name is 256 times "x"; `garbage` is what
`cName` holds after the failed conversion. -/
def longPlainNameSystem (garbage : CString) : AudioSystem :=
  { emptySystem with
    devices := [8]
    name := fun d => if d = 8 then some (List.replicate 256 'x') else none
    cNameOnFailure := fun _ _ => garbage }

/-- Device 5 with two input buffers of `2^31` channels each; every read succeeds. -/
def wrapSystem : AudioSystem :=
  { emptySystem with
    devices := [5]
    inputConfigSize := fun _ => 40
    inputBuffers := fun d => if d = 5 then [2147483648, 2147483648] else [] }

/-! ## Lemmas on `strstr` -/

theorem startsWith_iff_initial (hay needle : CString) :
    startsWith hay needle = true ↔ needle <+: hay := by
  induction hay generalizing needle with
  | nil =>
    cases needle with
    | nil => simp [startsWith]
    | cons n ns => simp [startsWith]
  | cons h hs ih =>
    cases needle with
    | nil => simp [startsWith]
    | cons n ns =>
      simp only [startsWith, Bool.and_eq_true, beq_iff_eq, ih, List.cons_prefix_cons]
      constructor
      · rintro ⟨rfl, h2⟩
        exact ⟨rfl, h2⟩
      · rintro ⟨rfl, h2⟩
        exact ⟨rfl, h2⟩

/-- The call `strstr hay needle` is non-NULL exactly when `needle` occurs in
`hay` as a contiguous block. -/
theorem strstr_isSome_iff_occurs (hay needle : CString) :
    (strstr hay needle).isSome = true ↔ needle <:+: hay := by
  induction hay with
  | nil =>
    unfold strstr
    by_cases hp : startsWith [] needle = true
    · have := (startsWith_iff_initial [] needle).1 hp
      simp [hp, this.isInfix]
    · have hn : ¬ needle <+: [] := fun h => hp ((startsWith_iff_initial [] needle).2 h)
      simp only [hp]
      simp only [List.prefix_nil] at hn
      simp [hn]
  | cons h hs ih =>
    unfold strstr
    by_cases hp : startsWith (h :: hs) needle = true
    · have := (startsWith_iff_initial (h :: hs) needle).1 hp
      simp [hp, this.isInfix]
    · have hn : ¬ needle <+: h :: hs := fun hh => hp ((startsWith_iff_initial _ needle).2 hh)
      simp only [hp, Bool.false_eq_true, if_false, Option.isSome_map', ih, List.infix_cons_iff]
      tauto

/-! ## Lemmas on `find_device_by_name` -/

/-- For a display name that fits the buffer, `cName` holds the display name. -/
theorem cNameAfterConversion_of_fits (sys : AudioSystem) (name : CString)
    (d : AudioDeviceID) (deviceName : CFString) (hfit : fitsCName deviceName) :
    cNameAfterConversion sys name d deviceName = deviceName := by
  have hlen : utf8Length deviceName + 1 ≤ 256 := hfit.1
  have hnul : ∀ c ∈ deviceName, decide (c ≠ Char.ofNat 0) = true := by
    intro c hc
    have : c ≠ Char.ofNat 0 := fun h => hfit.2 (h ▸ hc)
    simpa using this
  simp only [cNameAfterConversion, CFStringGetCString, hlen, if_true, cStringOfBuffer]
  exact List.takeWhile_eq_self_iff.2 hnul

theorem find_device_loop_cons_passedOver (sys : AudioSystem) (name : CString)
    (d : AudioDeviceID) (rest : List AudioDeviceID) (h : passedOver sys name d) :
    find_device_loop sys name (d :: rest) = find_device_loop sys name rest := by
  by_cases hs : sys.nameStatus d = noErr
  · cases hn : sys.name d with
    | none => simp [find_device_loop, hs, hn]
    | some deviceName =>
      have := h hs deviceName hn
      have h2 : (strstr (cNameAfterConversion sys name d deviceName) name).isSome = false := by
        rw [← Bool.not_eq_true, strstr_isSome_iff_occurs]
        exact this
      simp [find_device_loop, hs, hn, h2]
  · simp [find_device_loop, hs]

theorem find_device_loop_none (sys : AudioSystem) (name : CString)
    (ds : List AudioDeviceID) (h : ∀ d ∈ ds, passedOver sys name d) :
    find_device_loop sys name ds = kAudioDeviceUnknown := by
  induction ds with
  | nil => rfl
  | cons d rest ih =>
    rw [find_device_loop_cons_passedOver sys name d rest (h d (List.mem_cons_self _ _))]
    exact ih (fun e he => h e (List.mem_cons_of_mem _ he))

theorem find_device_loop_first (sys : AudioSystem) (name : CString)
    (pre : List AudioDeviceID) (d : AudioDeviceID) (post : List AudioDeviceID)
    (deviceName : CFString)
    (hpre : ∀ e ∈ pre, passedOver sys name e)
    (hs : sys.nameStatus d = noErr) (hn : sys.name d = some deviceName)
    (hm : name <:+: cNameAfterConversion sys name d deviceName) :
    find_device_loop sys name (pre ++ d :: post) = d := by
  induction pre with
  | nil =>
    have h2 : (strstr (cNameAfterConversion sys name d deviceName) name).isSome = true :=
      (strstr_isSome_iff_occurs _ _).2 hm
    simp [find_device_loop, hs, hn, h2]
  | cons e pre ih =>
    rw [List.cons_append, find_device_loop_cons_passedOver sys name e _ (hpre e (List.mem_cons_self _ _))]
    exact ih (fun x hx => hpre x (List.mem_cons_of_mem _ hx))

/-- A device whose readable name fits the buffer and does not contain the
search string is passed over, as is a device whose name cannot be read. -/
theorem passedOver_of_fits (sys : AudioSystem) (name : CString) (d : AudioDeviceID)
    (h : sys.nameStatus d = noErr → ∀ n, sys.name d = some n → fitsCName n ∧ ¬ name <:+: n) :
    passedOver sys name d := by
  intro hs n hn
  rw [cNameAfterConversion_of_fits sys name d n (h hs n hn).1]
  exact (h hs n hn).2

/-- The loop reads the subsystem only through the name reads and the content
of the buffer after a failed conversion. -/
theorem find_device_loop_congr (sys sys2 : AudioSystem) (name : CString)
    (ds : List AudioDeviceID) (hs : sys2.nameStatus = sys.nameStatus)
    (hn : sys2.name = sys.name) (hg : sys2.cNameOnFailure = sys.cNameOnFailure) :
    find_device_loop sys2 name ds = find_device_loop sys name ds := by
  induction ds with
  | nil => rfl
  | cons d rest ih => simp only [find_device_loop, cNameAfterConversion, hs, hn, hg, ih]

theorem find_device_loop_filter (sys : AudioSystem) (name : CString)
    (ds : List AudioDeviceID) :
    find_device_loop sys name (ds.filter (nameReadable sys)) = find_device_loop sys name ds := by
  induction ds with
  | nil => rfl
  | cons d rest ih =>
    by_cases hr : nameReadable sys d = true
    · rw [List.filter_cons_of_pos hr]
      simp only [find_device_loop, ih]
    · rw [List.filter_cons_of_neg hr, ih]
      symm
      apply find_device_loop_cons_passedOver
      intro hs deviceName hn
      exact absurd (by simp [nameReadable, hs, hn]) hr

/-- For a device list retrieved successfully whose names are all readable and
fit the buffer `cName`, `find_device_by_name` returns the first device in
enumeration order whose display name contains the search string as a
contiguous, case-sensitive block, and `kAudioDeviceUnknown` when no display
name contains it. -/
theorem find_device_by_name_first_match_of_fits (sys : AudioSystem) (name : CString)
    (hsize : sys.devicesSizeStatus = noErr) (hdata : sys.devicesDataStatus = noErr)
    (hread : ∀ d ∈ sys.devices, sys.nameStatus d = noErr ∧ sys.name d ≠ none)
    (hfit : ∀ d ∈ sys.devices, ∀ n, sys.name d = some n → fitsCName n) :
    (∀ pre d post n, sys.devices = pre ++ d :: post → sys.name d = some n →
        name <:+: n → (∀ e ∈ pre, ∀ c, sys.name e = some c → ¬ name <:+: c) →
        find_device_by_name sys name = d)
    ∧ ((∀ d ∈ sys.devices, ∀ c, sys.name d = some c → ¬ name <:+: c) →
        find_device_by_name sys name = kAudioDeviceUnknown) := by
  constructor
  · intro pre d post n hsplit hn hm hpre
    have hd : d ∈ sys.devices := by rw [hsplit]; simp
    have hmem : ∀ e ∈ pre, e ∈ sys.devices := by
      intro e he
      rw [hsplit]
      exact List.mem_append_left _ he
    simp only [find_device_by_name, hsize, hdata, ne_eq, not_true_eq_false, if_false]
    rw [hsplit]
    refine find_device_loop_first sys name pre d post n ?_ (hread d hd).1 hn ?_
    · intro e he
      exact passedOver_of_fits sys name e
        (fun _ c hc => ⟨hfit e (hmem e he) c hc, hpre e he c hc⟩)
    · rw [cNameAfterConversion_of_fits sys name d n (hfit d hd n hn)]
      exact hm
  · intro hnone
    simp only [find_device_by_name, hsize, hdata, ne_eq, not_true_eq_false, if_false]
    exact find_device_loop_none sys name sys.devices
      (fun d hd => passedOver_of_fits sys name d
        (fun _ c hc => ⟨hfit d hd c hc, hnone d hd c hc⟩))

/-- The two examples of the specification: "Mic" finds "USB Mic Pro" (device
42, listed after "Built-in Output") and does not find "usb microphone". -/
theorem find_device_by_name_examples :
    find_device_by_name usbMicSystem "Mic".toList = 42
    ∧ find_device_by_name lowercaseSystem "Mic".toList = kAudioDeviceUnknown :=
  ⟨(find_device_by_name_first_match_of_fits usbMicSystem "Mic".toList rfl rfl
      (by decide) (by decide)).1 [41] 42 [] "USB Mic Pro".toList rfl rfl (by decide)
      (by decide),
   (find_device_by_name_first_match_of_fits lowercaseSystem "Mic".toList rfl rfl
      (by decide) (by decide)).2 (by decide)⟩

/-- The resolver does not read the answer given to a default-input write. -/
theorem find_device_by_name_setDefaultInputStatus (sys : AudioSystem)
    (f : AudioDeviceID → OSStatus) (name : CString) :
    find_device_by_name { sys with setDefaultInputStatus := f } name
      = find_device_by_name sys name := by
  unfold find_device_by_name
  show (if sys.devicesSizeStatus ≠ noErr then kAudioDeviceUnknown
    else if sys.devicesDataStatus ≠ noErr then kAudioDeviceUnknown
    else find_device_loop { sys with setDefaultInputStatus := f } name sys.devices) = _
  rw [find_device_loop_congr sys { sys with setDefaultInputStatus := f } name sys.devices
    rfl rfl rfl]

/-- The exit code of `main` is 0 exactly when there are two arguments, both
searches resolve, the identity of the microphone is non-NULL and the
reconfiguration returns 0. -/
theorem main_ret_eq_zero_iff (argv : List CString) (sys : AudioSystem) :
    (main argv sys).ret = 0 ↔
      3 ≤ argv.length
      ∧ find_device_by_name sys (argv.getD 1 []) ≠ kAudioDeviceUnknown
      ∧ find_device_by_name sys (argv.getD 2 []) ≠ kAudioDeviceUnknown
      ∧ ∃ u, get_device_uid sys (find_device_by_name sys (argv.getD 2 [])) = some u
          ∧ (set_aggregate_to_single_device sys
              (find_device_by_name sys (argv.getD 1 [])) u).ret = 0 := by
  rcases argv with _ | ⟨prog, _ | ⟨aggName, _ | ⟨micName, more⟩⟩⟩
  · simp [main]
  · simp [main]
  · simp [main]
  · simp only [main, List.length_cons, List.getD_cons_succ, List.getD_cons_zero]
    by_cases hagg : find_device_by_name sys aggName = kAudioDeviceUnknown
    · simp [hagg]
    · by_cases hmic : find_device_by_name sys micName = kAudioDeviceUnknown
      · simp [hagg, hmic]
      · cases hu : get_device_uid sys (find_device_by_name sys micName) with
        | none => simp [hagg, hmic]
        | some u =>
          by_cases hr : (set_aggregate_to_single_device sys
              (find_device_by_name sys aggName) u).ret = 0
          · simp [hagg, hmic, hr]
          · simp [hagg, hmic, hr]

theorem main_ret_zero_or_one (argv : List CString) (sys : AudioSystem) :
    (main argv sys).ret = 0 ∨ (main argv sys).ret = 1 := by
  rcases argv with _ | ⟨prog, _ | ⟨aggName, _ | ⟨micName, more⟩⟩⟩
  · simp [main]
  · simp [main]
  · simp [main]
  · simp only [main]
    by_cases hagg : find_device_by_name sys aggName = kAudioDeviceUnknown
    · simp [hagg]
    · by_cases hmic : find_device_by_name sys micName = kAudioDeviceUnknown
      · simp [hagg, hmic]
      · cases hu : get_device_uid sys (find_device_by_name sys micName) with
        | none => simp [hagg, hmic]
        | some u =>
          by_cases hr : (set_aggregate_to_single_device sys
              (find_device_by_name sys aggName) u).ret = 0
          · simp [hagg, hmic, hr]
          · simp [hagg, hmic, hr]

/-- The exit status of the reconfigurator does not read the answer given to a
default-input write. -/
theorem set_aggregate_ret_setDefaultInputStatus (sys : AudioSystem)
    (f : AudioDeviceID → OSStatus) (aggID : AudioDeviceID) (targetUID : CFString) :
    (set_aggregate_to_single_device { sys with setDefaultInputStatus := f } aggID targetUID).ret
      = (set_aggregate_to_single_device sys aggID targetUID).ret := by
  unfold set_aggregate_to_single_device
  by_cases hr : sys.subDeviceListStatus aggID ≠ noErr ∨ sys.subDeviceList aggID = none
  · simp only [hr, if_true]
  · by_cases hw : sys.setSubDeviceListStatus aggID [targetUID] = noErr
    · simp [hr, hw]
    · simp [hr, hw]

/-! ## The device resolver -/

set_option maxRecDepth 100000

/-- C1 fails on the code for a display name that does not fit `cName`. Device 7
has the readable name of 300 "x" followed by "Mic" (303 bytes), which contains
"Mic"; the conversion into `char cName[256]` fails, its result is not tested,
and the search for "Mic" returns `kAudioDeviceUnknown` instead of 7 when the
buffer is left empty and when it is left with the first 255 characters.
Device 8 has the readable name of 256 "x", which does not contain "Mic"; when
the buffer still holds "MultiMic", the search for "Mic" returns 8 instead of
`kAudioDeviceUnknown`. -/
theorem find_device_by_name_long_name :
    ((longNameSystem []).devicesSizeStatus = noErr
      ∧ (longNameSystem []).devicesDataStatus = noErr
      ∧ (∀ d ∈ (longNameSystem []).devices,
          (longNameSystem []).nameStatus d = noErr ∧ (longNameSystem []).name d ≠ none)
      ∧ (longNameSystem []).name 7 = some (List.replicate 300 'x' ++ "Mic".toList)
      ∧ "Mic".toList <:+: List.replicate 300 'x' ++ "Mic".toList
      ∧ utf8Length (List.replicate 300 'x' ++ "Mic".toList) = 303
      ∧ CFStringGetCString (List.replicate 300 'x' ++ "Mic".toList) 256 = none)
    ∧ find_device_by_name (longNameSystem []) "Mic".toList = kAudioDeviceUnknown
    ∧ find_device_by_name (longNameSystem (List.replicate 255 'x')) "Mic".toList
        = kAudioDeviceUnknown
    ∧ ((longPlainNameSystem "MultiMic".toList).name 8 = some (List.replicate 256 'x')
      ∧ ¬ "Mic".toList <:+: List.replicate 256 'x'
      ∧ find_device_by_name (longPlainNameSystem "MultiMic".toList) "Mic".toList = 8) := by
  refine ⟨⟨rfl, rfl, by decide, rfl, (List.suffix_append _ _).isInfix, by decide,
    by decide⟩, by decide, by decide, rfl, ?_, by decide⟩
  intro h
  have hmem : 'M' ∈ List.replicate 256 'x' := h.subset (by simp)
  exact absurd (List.eq_of_mem_replicate hmem) (by decide)

/-- C2, as stated, fails: the name of device 1 cannot be read, and the search
for "Mic" still returns device 2 and not `kAudioDeviceUnknown`. -/
theorem find_device_by_name_unreadable_counterexample :
    (∃ d ∈ unreadableFirstSystem.devices, unreadableFirstSystem.nameStatus d ≠ noErr)
    ∧ find_device_by_name unreadableFirstSystem "Mic".toList = 2
    ∧ find_device_by_name unreadableFirstSystem "Mic".toList ≠ kAudioDeviceUnknown := by
  decide

/-- C2 (amended): `find_device_by_name` returns `kAudioDeviceUnknown` when the
size of the device list cannot be read, when its contents cannot be read, and
when every device with a readable name has a name that fits the buffer `cName`
(at most 255 bytes of UTF-8, no NUL) and does not contain the search string. A
device whose name cannot be read is passed over: the result is the one
obtained on the list without such devices, and a device with a readable name
that fits `cName` and contains the search string is returned when the devices
before it are unreadable or have fitting names without the search string.
Nothing is stated for names that do not fit `cName`. -/
theorem find_device_by_name_sentinel (sys : AudioSystem) (name : CString) :
    (sys.devicesSizeStatus ≠ noErr → find_device_by_name sys name = kAudioDeviceUnknown)
    ∧ (sys.devicesDataStatus ≠ noErr → find_device_by_name sys name = kAudioDeviceUnknown)
    ∧ ((∀ d ∈ sys.devices, sys.nameStatus d = noErr → ∀ n, sys.name d = some n →
          fitsCName n ∧ ¬ name <:+: n) →
        find_device_by_name sys name = kAudioDeviceUnknown)
    ∧ find_device_by_name sys name =
        find_device_by_name { sys with devices := sys.devices.filter (nameReadable sys) } name
    ∧ (∀ pre d post n, sys.devicesSizeStatus = noErr → sys.devicesDataStatus = noErr →
        sys.devices = pre ++ d :: post →
        (∀ e ∈ pre, sys.nameStatus e = noErr → ∀ m, sys.name e = some m →
          fitsCName m ∧ ¬ name <:+: m) →
        sys.nameStatus d = noErr → sys.name d = some n → fitsCName n → name <:+: n →
        find_device_by_name sys name = d) := by
  refine ⟨?_, ?_, ?_, ?_, ?_⟩
  · intro h
    simp [find_device_by_name, h]
  · intro h
    simp [find_device_by_name, h]
  · intro h
    unfold find_device_by_name
    split
    · rfl
    · split
      · rfl
      · exact find_device_loop_none sys name sys.devices
          (fun d hd => passedOver_of_fits sys name d (h d hd))
  · unfold find_device_by_name
    split
    · rfl
    · split
      · rfl
      · show find_device_loop sys name sys.devices = find_device_loop
          { sys with devices := sys.devices.filter (nameReadable sys) } name
          (sys.devices.filter (nameReadable sys))
        rw [find_device_loop_congr sys { sys with devices := sys.devices.filter (nameReadable sys) }
          name (sys.devices.filter (nameReadable sys)) rfl rfl rfl]
        exact (find_device_loop_filter sys name sys.devices).symm
  · intro pre d post n hsize hdata hsplit hpre hs hn hfit hm
    simp only [find_device_by_name, hsize, hdata, ne_eq, not_true_eq_false, if_false]
    rw [hsplit]
    refine find_device_loop_first sys name pre d post n ?_ hs hn ?_
    · intro e he
      exact passedOver_of_fits sys name e (hpre e he)
    · rw [cNameAfterConversion_of_fits sys name d n hfit]
      exact hm

/-- C2 (amended), at concrete systems: a failed size read, a failed contents
read and a list without a match give `kAudioDeviceUnknown`; the list with an
unreadable first device gives the result of the list without it, which is
device 2 "USB Mic Pro". -/
theorem find_device_by_name_sentinel_witness :
    find_device_by_name { usbMicSystem with devicesSizeStatus := -50 } "Mic".toList
        = kAudioDeviceUnknown
    ∧ find_device_by_name { usbMicSystem with devicesDataStatus := -50 } "Mic".toList
        = kAudioDeviceUnknown
    ∧ find_device_by_name lowercaseSystem "Mic".toList = kAudioDeviceUnknown
    ∧ find_device_by_name unreadableFirstSystem "Mic".toList =
        find_device_by_name { unreadableFirstSystem with devices := [2] } "Mic".toList
    ∧ find_device_by_name unreadableFirstSystem "Mic".toList = 2 :=
  ⟨(find_device_by_name_sentinel { usbMicSystem with devicesSizeStatus := -50 } "Mic".toList).1
      (by decide),
   (find_device_by_name_sentinel { usbMicSystem with devicesDataStatus := -50 } "Mic".toList).2.1
      (by decide),
   (find_device_by_name_sentinel lowercaseSystem "Mic".toList).2.2.1 (by decide),
   (find_device_by_name_sentinel unreadableFirstSystem "Mic".toList).2.2.2.1,
   (find_device_by_name_sentinel unreadableFirstSystem "Mic".toList).2.2.2.2
      [1] 2 [] "USB Mic Pro".toList rfl rfl rfl (by decide) rfl rfl (by decide) (by decide)⟩

/-! ## The aggregate reconfigurator -/

/-- C3: when the prior membership list of the aggregate is readable and
present and `set_aggregate_to_single_device` returns 0, the stored membership
list of the aggregate is exactly the one-element list of the target identity,
whatever the prior list was, and a later read of it is still answered `noErr`. -/
theorem set_aggregate_to_single_device_membership (sys : AudioSystem)
    (aggID : AudioDeviceID) (targetUID : CFString) (prior : List CFString)
    (hstatus : sys.subDeviceListStatus aggID = noErr)
    (hprior : sys.subDeviceList aggID = some prior)
    (hret : (set_aggregate_to_single_device sys aggID targetUID).ret = 0) :
    (set_aggregate_to_single_device sys aggID targetUID).sys.subDeviceList aggID
        = some [targetUID]
    ∧ (set_aggregate_to_single_device sys aggID targetUID).sys.subDeviceListStatus aggID
        = noErr := by
  unfold set_aggregate_to_single_device at hret ⊢
  simp only [hstatus, hprior, ne_eq, not_true_eq_false, false_or, reduceCtorEq, if_false,
    List.nil_append] at hret ⊢
  by_cases hw : sys.setSubDeviceListStatus aggID [targetUID] = noErr
  · simp [hw, hstatus]
  · simp [hw] at hret

/-- C3, on the scenario: members idX, idY are replaced by the single member idY. -/
theorem set_aggregate_to_single_device_membership_witness :
    multiMicSystem.subDeviceList 10 = some ["idX".toList, "idY".toList]
    ∧ (set_aggregate_to_single_device multiMicSystem 10 "idY".toList).sys.subDeviceList 10
        = some ["idY".toList] :=
  ⟨rfl, (set_aggregate_to_single_device_membership multiMicSystem 10 "idY".toList
      ["idX".toList, "idY".toList] rfl rfl rfl).1⟩

/-- C7: `set_aggregate_to_single_device` returns 0 or -1, and 0 exactly when
the membership read succeeds with a non-NULL list and the write is accepted.
A failed or NULL read gives -1 with no event at all and the subsystem
untouched; a rejected write gives -1 with the write as the only event; the
daemon restart and the two-second wait happen exactly when 0 is returned, and
then once each, after the write. -/
theorem set_aggregate_to_single_device_result (sys : AudioSystem)
    (aggID : AudioDeviceID) (targetUID : CFString) :
    ((set_aggregate_to_single_device sys aggID targetUID).ret = 0
      ∨ (set_aggregate_to_single_device sys aggID targetUID).ret = -1)
    ∧ ((set_aggregate_to_single_device sys aggID targetUID).ret = 0 ↔
        (sys.subDeviceListStatus aggID = noErr ∧ sys.subDeviceList aggID ≠ none
          ∧ sys.setSubDeviceListStatus aggID [targetUID] = noErr))
    ∧ ((sys.subDeviceListStatus aggID ≠ noErr ∨ sys.subDeviceList aggID = none) →
        (set_aggregate_to_single_device sys aggID targetUID).ret = -1
        ∧ (set_aggregate_to_single_device sys aggID targetUID).trace = []
        ∧ (set_aggregate_to_single_device sys aggID targetUID).sys = sys)
    ∧ (sys.subDeviceListStatus aggID = noErr → sys.subDeviceList aggID ≠ none →
        sys.setSubDeviceListStatus aggID [targetUID] ≠ noErr →
        (set_aggregate_to_single_device sys aggID targetUID).ret = -1
        ∧ (set_aggregate_to_single_device sys aggID targetUID).trace
            = [Event.writeSubDeviceList aggID [targetUID]])
    ∧ ((set_aggregate_to_single_device sys aggID targetUID).ret = 0 →
        (set_aggregate_to_single_device sys aggID targetUID).trace
            = [Event.writeSubDeviceList aggID [targetUID], Event.restartDaemon, Event.sleep 2])
    ∧ (Event.restartDaemon ∈ (set_aggregate_to_single_device sys aggID targetUID).trace ↔
        (set_aggregate_to_single_device sys aggID targetUID).ret = 0)
    ∧ (Event.sleep 2 ∈ (set_aggregate_to_single_device sys aggID targetUID).trace ↔
        (set_aggregate_to_single_device sys aggID targetUID).ret = 0) := by
  unfold set_aggregate_to_single_device
  by_cases hr : sys.subDeviceListStatus aggID ≠ noErr ∨ sys.subDeviceList aggID = none
  · have hr3 : sys.subDeviceListStatus aggID = noErr → sys.subDeviceList aggID ≠ none → False := by
      intro h1 h2
      rcases hr with hr | hr
      · exact hr h1
      · exact h2 hr
    simp only [hr, if_true]
    simp
    constructor
    · intro h1 h2
      exact absurd (hr3 h1 h2) id
    · intro h1 h2
      exact absurd (hr3 h1 h2) id
  · simp only [hr, if_false, List.nil_append]
    have hr1 : sys.subDeviceListStatus aggID = noErr := by
      by_contra h
      exact hr (Or.inl h)
    have hr2 : sys.subDeviceList aggID ≠ none := fun h => hr (Or.inr h)
    by_cases hw : sys.setSubDeviceListStatus aggID [targetUID] = noErr
    · simp [hw, hr1, hr2]
    · simp [hw, hr1, hr2]

/-- C7, at concrete subsystems: an unreadable membership list gives -1 with no
event, a rejected write gives -1 with the write alone, and the scenario gives 0
with the write, the restart and the wait. -/
theorem set_aggregate_to_single_device_result_witness :
    ((set_aggregate_to_single_device
        { multiMicSystem with subDeviceListStatus := fun _ => -1 } 10 "idY".toList).ret = -1
      ∧ (set_aggregate_to_single_device
        { multiMicSystem with subDeviceListStatus := fun _ => -1 } 10 "idY".toList).trace = []
      ∧ (set_aggregate_to_single_device
        { multiMicSystem with subDeviceListStatus := fun _ => -1 } 10 "idY".toList).sys
          = { multiMicSystem with subDeviceListStatus := fun _ => -1 })
    ∧ ((set_aggregate_to_single_device
        { multiMicSystem with setSubDeviceListStatus := fun _ _ => -1 } 10 "idY".toList).ret = -1
      ∧ (set_aggregate_to_single_device
        { multiMicSystem with setSubDeviceListStatus := fun _ _ => -1 } 10 "idY".toList).trace
          = [Event.writeSubDeviceList 10 ["idY".toList]])
    ∧ (set_aggregate_to_single_device multiMicSystem 10 "idY".toList).trace
        = [Event.writeSubDeviceList 10 ["idY".toList], Event.restartDaemon, Event.sleep 2] :=
  ⟨(set_aggregate_to_single_device_result
      { multiMicSystem with subDeviceListStatus := fun _ => -1 } 10 "idY".toList).2.2.1
      (Or.inl (by decide)),
   (set_aggregate_to_single_device_result
      { multiMicSystem with setSubDeviceListStatus := fun _ _ => -1 } 10 "idY".toList).2.2.2.1
      rfl (by decide) (by decide),
   (set_aggregate_to_single_device_result multiMicSystem 10 "idY".toList).2.2.2.2.1 rfl⟩

/-! ## `main` -/

/-- C4: when the microphone search string resolves to no device, `main`
returns 1, performs no write of the membership list, no write of the default
input and no daemon restart, and leaves the subsystem as it was; in particular
the membership lists and the default input are unchanged. -/
theorem main_unresolved_microphone (sys : AudioSystem) (prog aggName micName : CString)
    (more : List CString)
    (hmic : find_device_by_name sys micName = kAudioDeviceUnknown) :
    (main (prog :: aggName :: micName :: more) sys).ret = 1
    ∧ (main (prog :: aggName :: micName :: more) sys).trace.filter Event.isMutation = []
    ∧ (main (prog :: aggName :: micName :: more) sys).sys = sys
    ∧ (main (prog :: aggName :: micName :: more) sys).sys.subDeviceList = sys.subDeviceList
    ∧ (main (prog :: aggName :: micName :: more) sys).sys.defaultInput = sys.defaultInput := by
  unfold main
  by_cases hagg : find_device_by_name sys aggName = kAudioDeviceUnknown
  · simp [hagg, Event.isMutation]
  · simp [hagg, hmic, Event.isMutation]

/-- C4, on the scenario: arguments "MultiMic" and "Nonexistent Device". -/
theorem main_unresolved_microphone_witness :
    find_device_by_name multiMicSystem "Nonexistent Device".toList = kAudioDeviceUnknown
    ∧ (main ["mic-select".toList, "MultiMic".toList, "Nonexistent Device".toList]
        multiMicSystem).ret = 1
    ∧ (main ["mic-select".toList, "MultiMic".toList, "Nonexistent Device".toList]
        multiMicSystem).sys.subDeviceList 10 = some ["idX".toList, "idY".toList]
    ∧ (main ["mic-select".toList, "MultiMic".toList, "Nonexistent Device".toList]
        multiMicSystem).sys.defaultInput = 11 :=
  have h := main_unresolved_microphone multiMicSystem "mic-select".toList "MultiMic".toList
    "Nonexistent Device".toList [] (by decide)
  ⟨by decide, h.1, by rw [h.2.2.2.1]; rfl, by rw [h.2.2.2.2]; rfl⟩

/-- C5: when the aggregate search string resolves to `A`, the microphone search
string resolves to `M` with readable identity `u`, the membership list of `A`
is readable and present and both writes are accepted, then after `main` the
membership list of `A` is exactly `[u]`, the default input is `M`, and `main`
returns 0. -/
theorem main_success (sys : AudioSystem) (prog aggName micName : CString)
    (more : List CString) (A M : AudioDeviceID) (u : CFString) (prior : List CFString)
    (hA : find_device_by_name sys aggName = A) (hA0 : A ≠ kAudioDeviceUnknown)
    (hM : find_device_by_name sys micName = M) (hM0 : M ≠ kAudioDeviceUnknown)
    (hus : sys.uidStatus M = noErr) (hu : sys.uid M = some u)
    (hls : sys.subDeviceListStatus A = noErr) (hl : sys.subDeviceList A = some prior)
    (hw : sys.setSubDeviceListStatus A [u] = noErr)
    (hd : sys.setDefaultInputStatus M = noErr) :
    (main (prog :: aggName :: micName :: more) sys).sys.subDeviceList A = some [u]
    ∧ (main (prog :: aggName :: micName :: more) sys).sys.defaultInput = M
    ∧ (main (prog :: aggName :: micName :: more) sys).ret = 0 := by
  simp [main, hA, hA0, hM, hM0, get_device_uid, hus, hu, set_aggregate_to_single_device,
    hls, hl, hw, set_default_input, hd]

/-- C5, on the scenario: "MultiMic" with members idX, idY and arguments
"MultiMic", "Blue Yeti" end with the single member idY, default input 12 (the
Blue Yeti handle) and exit code 0. -/
theorem main_success_witness :
    (main ["mic-select".toList, "MultiMic".toList, "Blue Yeti".toList]
        multiMicSystem).sys.subDeviceList 10 = some ["idY".toList]
    ∧ (main ["mic-select".toList, "MultiMic".toList, "Blue Yeti".toList]
        multiMicSystem).sys.defaultInput = 12
    ∧ (main ["mic-select".toList, "MultiMic".toList, "Blue Yeti".toList]
        multiMicSystem).ret = 0 :=
  main_success multiMicSystem "mic-select".toList "MultiMic".toList "Blue Yeti".toList []
    10 12 "idY".toList ["idX".toList, "idY".toList]
    (by decide) (by decide) (by decide) (by decide) rfl rfl rfl rfl rfl rfl

/-- C6: the exit code of `main` is 0 or 1; it is 0 exactly when at least two
arguments were given, the aggregate and the microphone search strings both
resolved, the identity of the microphone was read as non-NULL and
`set_aggregate_to_single_device` returned 0; and it does not depend on how the
default-input write is answered. -/
theorem main_exit_code (argv : List CString) (sys : AudioSystem) :
    ((main argv sys).ret = 0 ∨ (main argv sys).ret = 1)
    ∧ ((main argv sys).ret = 0 ↔
        3 ≤ argv.length
        ∧ find_device_by_name sys (argv.getD 1 []) ≠ kAudioDeviceUnknown
        ∧ find_device_by_name sys (argv.getD 2 []) ≠ kAudioDeviceUnknown
        ∧ ∃ u, get_device_uid sys (find_device_by_name sys (argv.getD 2 [])) = some u
            ∧ (set_aggregate_to_single_device sys
                (find_device_by_name sys (argv.getD 1 [])) u).ret = 0)
    ∧ (∀ f : AudioDeviceID → OSStatus,
        (main argv { sys with setDefaultInputStatus := f }).ret = (main argv sys).ret) := by
  refine ⟨main_ret_zero_or_one argv sys, main_ret_eq_zero_iff argv sys, ?_⟩
  intro f
  have hiff : (main argv { sys with setDefaultInputStatus := f }).ret = 0
      ↔ (main argv sys).ret = 0 := by
    rw [main_ret_eq_zero_iff, main_ret_eq_zero_iff]
    simp only [find_device_by_name_setDefaultInputStatus,
      set_aggregate_ret_setDefaultInputStatus]
    rfl
  rcases main_ret_zero_or_one argv { sys with setDefaultInputStatus := f } with h1 | h1
  · rw [h1, hiff.1 h1]
  · rcases main_ret_zero_or_one argv sys with h2 | h2
    · rw [hiff.2 h2] at h1
      exact absurd h1 (by decide)
    · rw [h1, h2]

/-- C6, on the scenario with every default-input write rejected: the exit code
is still 0, as it is when the write is accepted. -/
theorem main_exit_code_witness :
    (main ["mic-select".toList, "MultiMic".toList, "Blue Yeti".toList]
        { multiMicSystem with setDefaultInputStatus := fun _ => -1 }).ret = 0
    ∧ (main ["mic-select".toList, "MultiMic".toList, "Blue Yeti".toList]
        { multiMicSystem with setDefaultInputStatus := fun _ => -1 }).sys.defaultInput = 11 :=
  ⟨((main_exit_code ["mic-select".toList, "MultiMic".toList, "Blue Yeti".toList]
      multiMicSystem).2.2 (fun _ => -1)).trans (by decide), by decide⟩

/-- C9: with `A`, `M` the devices the two arguments resolve to and `u` the
identity read for `M`, the mutating events of a run of `main` form a prefix of
[membership write of `[u]` to `A`, daemon restart, default-input write of `M`],
and its calls form a prefix of [resolver on `argv[1]`, resolver on `argv[2]`,
identity reader on `M`, reconfigurator on `A` and `u`, default-input setter on
`M`], so that nothing is called twice. A membership write only happens with
two arguments given, both devices resolved and the identity non-NULL; a daemon
restart only after an accepted membership write; a default-input write only
after `set_aggregate_to_single_device` returned 0. -/
theorem main_mutation_sequence (argv : List CString) (sys : AudioSystem) :
    (main argv sys).trace.filter Event.isMutation <+:
        [Event.writeSubDeviceList (find_device_by_name sys (argv.getD 1 []))
            [(get_device_uid sys (find_device_by_name sys (argv.getD 2 []))).getD []],
          Event.restartDaemon,
          Event.writeDefaultInput (find_device_by_name sys (argv.getD 2 []))]
    ∧ (main argv sys).trace.filter Event.isCall <+:
        [Event.callFind (argv.getD 1 []), Event.callFind (argv.getD 2 []),
          Event.callGetUid (find_device_by_name sys (argv.getD 2 [])),
          Event.callSetAggregate (find_device_by_name sys (argv.getD 1 []))
            ((get_device_uid sys (find_device_by_name sys (argv.getD 2 []))).getD []),
          Event.callSetDefaultInput (find_device_by_name sys (argv.getD 2 []))]
    ∧ (∀ a l, Event.writeSubDeviceList a l ∈ (main argv sys).trace →
        3 ≤ argv.length
        ∧ a = find_device_by_name sys (argv.getD 1 [])
        ∧ a ≠ kAudioDeviceUnknown
        ∧ find_device_by_name sys (argv.getD 2 []) ≠ kAudioDeviceUnknown
        ∧ ∃ u, get_device_uid sys (find_device_by_name sys (argv.getD 2 [])) = some u
            ∧ l = [u])
    ∧ (Event.restartDaemon ∈ (main argv sys).trace →
        ∃ u, get_device_uid sys (find_device_by_name sys (argv.getD 2 [])) = some u
          ∧ Event.writeSubDeviceList (find_device_by_name sys (argv.getD 1 [])) [u]
              ∈ (main argv sys).trace
          ∧ sys.setSubDeviceListStatus (find_device_by_name sys (argv.getD 1 [])) [u] = noErr)
    ∧ (∀ m, Event.writeDefaultInput m ∈ (main argv sys).trace →
        m = find_device_by_name sys (argv.getD 2 [])
        ∧ ∃ u, get_device_uid sys (find_device_by_name sys (argv.getD 2 [])) = some u
          ∧ (set_aggregate_to_single_device sys
              (find_device_by_name sys (argv.getD 1 [])) u).ret = 0) := by
  rcases argv with _ | ⟨prog, _ | ⟨aggName, _ | ⟨micName, more⟩⟩⟩
  · simp [main, Event.isMutation, Event.isCall]
  · simp [main, Event.isMutation, Event.isCall]
  · simp [main, Event.isMutation, Event.isCall]
  · simp only [main, List.length_cons, List.getD_cons_succ, List.getD_cons_zero]
    by_cases hagg : find_device_by_name sys aggName = kAudioDeviceUnknown
    · simp [hagg, Event.isMutation, Event.isCall]
    · by_cases hmic : find_device_by_name sys micName = kAudioDeviceUnknown
      · simp [hagg, hmic, Event.isMutation, Event.isCall]
      · cases hu : get_device_uid sys (find_device_by_name sys micName) with
        | none => simp [hagg, hmic, Event.isMutation, Event.isCall]
        | some u =>
          by_cases hr : sys.subDeviceListStatus (find_device_by_name sys aggName) ≠ noErr
              ∨ sys.subDeviceList (find_device_by_name sys aggName) = none
          · simp [hagg, hmic, set_aggregate_to_single_device, hr, Event.isMutation,
              Event.isCall]
          · by_cases hw : sys.setSubDeviceListStatus (find_device_by_name sys aggName) [u]
                = noErr
            · simp [hagg, hmic, set_aggregate_to_single_device, set_default_input, hr, hw,
                Event.isMutation, Event.isCall]
            · simp [hagg, hmic, set_aggregate_to_single_device, hr, hw, Event.isMutation,
                Event.isCall]

/-- C9, on the scenario: the run restarts the daemon, and it does so after the
accepted write of the single member idY to the aggregate 10. -/
theorem main_mutation_sequence_witness :
    Event.restartDaemon ∈
      (main ["mic-select".toList, "MultiMic".toList, "Blue Yeti".toList] multiMicSystem).trace
    ∧ ∃ u, get_device_uid multiMicSystem
          (find_device_by_name multiMicSystem "Blue Yeti".toList) = some u
        ∧ Event.writeSubDeviceList (find_device_by_name multiMicSystem "MultiMic".toList) [u]
            ∈ (main ["mic-select".toList, "MultiMic".toList, "Blue Yeti".toList]
                multiMicSystem).trace
        ∧ multiMicSystem.setSubDeviceListStatus
            (find_device_by_name multiMicSystem "MultiMic".toList) [u] = noErr :=
  ⟨by decide,
   (main_mutation_sequence ["mic-select".toList, "MultiMic".toList, "Blue Yeti".toList]
      multiMicSystem).2.2.2.1 (by decide)⟩

/-- C10: `main` does not compare the two resolved devices. When both search
strings resolve to the same device `A` and every read and write succeeds, the
program writes the identity of `A` itself as the only member of `A`, sets `A`
as default input and returns 0. -/
theorem main_same_device (sys : AudioSystem) (prog aggName micName : CString)
    (more : List CString) (A : AudioDeviceID) (u : CFString) (prior : List CFString)
    (hA : find_device_by_name sys aggName = A) (hM : find_device_by_name sys micName = A)
    (hA0 : A ≠ kAudioDeviceUnknown)
    (hus : sys.uidStatus A = noErr) (hu : sys.uid A = some u)
    (hls : sys.subDeviceListStatus A = noErr) (hl : sys.subDeviceList A = some prior)
    (hw : sys.setSubDeviceListStatus A [u] = noErr)
    (hd : sys.setDefaultInputStatus A = noErr) :
    Event.writeSubDeviceList A [u] ∈ (main (prog :: aggName :: micName :: more) sys).trace
    ∧ (main (prog :: aggName :: micName :: more) sys).sys.subDeviceList A = some [u]
    ∧ (main (prog :: aggName :: micName :: more) sys).sys.defaultInput = A
    ∧ (main (prog :: aggName :: micName :: more) sys).ret = 0 := by
  simp [main, hA, hA0, hM, get_device_uid, hus, hu, set_aggregate_to_single_device,
    hls, hl, hw, set_default_input, hd]

/-- C10, on an example: with "MultiMic" enumerated first, the arguments
"MultiMic" and "Mic" both resolve to the aggregate 10, which ends up with its
own identity idAgg as only member and as default input, with exit code 0. -/
theorem main_same_device_witness :
    find_device_by_name multiMicSystem "MultiMic".toList = 10
    ∧ find_device_by_name multiMicSystem "Mic".toList = 10
    ∧ Event.writeSubDeviceList 10 ["idAgg".toList]
        ∈ (main ["mic-select".toList, "MultiMic".toList, "Mic".toList] multiMicSystem).trace
    ∧ (main ["mic-select".toList, "MultiMic".toList, "Mic".toList]
        multiMicSystem).sys.subDeviceList 10 = some ["idAgg".toList]
    ∧ (main ["mic-select".toList, "MultiMic".toList, "Mic".toList]
        multiMicSystem).sys.defaultInput = 10
    ∧ (main ["mic-select".toList, "MultiMic".toList, "Mic".toList] multiMicSystem).ret = 0 :=
  ⟨by decide, by decide,
   main_same_device multiMicSystem "mic-select".toList "MultiMic".toList "Mic".toList []
    10 "idAgg".toList ["idX".toList, "idY".toList]
    (by decide) (by decide) (by decide) rfl rfl rfl rfl rfl rfl⟩

/-! ## `device_has_input_channels` -/

theorem sum_channels_lt (acc : Nat) (l : List Nat) (hacc : acc < 2 ^ 32) :
    sum_channels acc l < 2 ^ 32 := by
  induction l generalizing acc with
  | nil => exact hacc
  | cons c rest ih => exact ih _ (Nat.mod_lt _ (by decide))

/-- Without wrap-around the loop computes the plain sum. -/
theorem sum_channels_eq_sum (acc : Nat) (l : List Nat) (h : acc + l.sum < 2 ^ 32) :
    sum_channels acc l = acc + l.sum := by
  induction l generalizing acc with
  | nil => simp [sum_channels]
  | cons c rest ih =>
    simp only [List.sum_cons] at h
    have hc : (acc + c) % 2 ^ 32 = acc + c := Nat.mod_eq_of_lt (by omega)
    simp only [sum_channels, hc, List.sum_cons]
    rw [ih (acc + c) (by omega)]
    omega

/-- A device whose input buffers all carry zero channels (or that has no input
buffer) is reported as having no input channels. -/
theorem device_has_input_channels_all_zero (sys : AudioSystem) (d : AudioDeviceID)
    (h : ∀ c ∈ sys.inputBuffers d, c = 0) : device_has_input_channels sys d = 0 := by
  have hs : sum_channels 0 (sys.inputBuffers d) = 0 := by
    generalize sys.inputBuffers d = l at h
    induction l with
    | nil => rfl
    | cons c rest ih =>
      have hc : c = 0 := h c (List.mem_cons_self _ _)
      subst hc
      simpa [sum_channels] using ih (fun x hx => h x (List.mem_cons_of_mem _ hx))
  unfold device_has_input_channels
  simp [hs]

/-- As long as the channel counts sum to less than `2^32`, a device whose
stream configuration is read successfully is reported as having input channels
exactly when some input buffer carries at least one channel. -/
theorem device_has_input_channels_no_wrap (sys : AudioSystem) (d : AudioDeviceID)
    (hsize : sys.inputConfigSizeStatus d = noErr)
    (hmalloc : sys.mallocOk (sys.inputConfigSize d) = true)
    (hdata : sys.inputConfigStatus d = noErr)
    (hsum : (sys.inputBuffers d).sum < 2 ^ 32) :
    device_has_input_channels sys d = 1 ↔ ∃ c ∈ sys.inputBuffers d, 1 ≤ c := by
  have hs : sum_channels 0 (sys.inputBuffers d) = (sys.inputBuffers d).sum := by
    rw [sum_channels_eq_sum 0 _ (by omega)]
    omega
  have hpos : 0 < (sys.inputBuffers d).sum ↔ ∃ c ∈ sys.inputBuffers d, 1 ≤ c := by
    generalize sys.inputBuffers d = l
    induction l with
    | nil => simp
    | cons c rest ih =>
      simp only [List.sum_cons, List.mem_cons, exists_eq_or_imp]
      rw [← ih]
      omega
  unfold device_has_input_channels
  simp only [hsize, hmalloc, hdata, hs, ne_eq, not_true_eq_false, if_false, Bool.not_true,
    Bool.false_eq_true, gt_iff_lt]
  rw [← hpos]
  by_cases h0 : 0 < (sys.inputBuffers d).sum
  · simp [h0]
  · simp [h0]

/-- C8 fails on the code: device 5 has two input buffers of `2^31` channels
each, both 32-bit values, its stream configuration is read successfully, and
`device_has_input_channels` returns 0 because the 32-bit total wraps to 0. -/
theorem device_has_input_channels_wraps :
    wrapSystem.inputConfigSizeStatus 5 = noErr
    ∧ wrapSystem.mallocOk (wrapSystem.inputConfigSize 5) = true
    ∧ wrapSystem.inputConfigStatus 5 = noErr
    ∧ (∀ c ∈ wrapSystem.inputBuffers 5, c < 2 ^ 32)
    ∧ (∃ c ∈ wrapSystem.inputBuffers 5, 1 ≤ c)
    ∧ sum_channels 0 (wrapSystem.inputBuffers 5) = 0
    ∧ device_has_input_channels wrapSystem 5 = 0 := by
  decide

end MicSelect
